import Mathlib

/-!
Verification of `src/app/makeReal.tsx` (the make-real feature of a
drawing-canvas web application) against its natural-language specification.

The TypeScript source is shallowly embedded below.  The canvas editor
(`@tldraw/tldraw`) is an external collaborator: its observable outputs that
the code reads (selected shape ids, the shape store, the descendant-id
collection, the selection page bounds) are fields of `EditorState`, and its
mutating operations (`createShape`, `updateShape`, `deleteShape`) are pure
state transformers.  The remote OpenAI call is modelled by its outcome,
passed to `makeReal` as an `Except` value; the image-capture collaborator is
modelled by the resulting data-url string, passed as a parameter.
JavaScript string primitives (`String.prototype.indexOf`, the negative
"not found" sentinel, `String.prototype.slice` clamping) are embedded with
their JavaScript semantics.
-/

namespace MakeReal

/-- Shape kinds occurring in the code: the four allow-listed text-bearing
kinds (`text`, `geo`, `arrow`, `note`), the `response` kind, and any other
tldraw kind (tagged with its kind string). -/
inductive ShapeType where
  | text
  | geo
  | arrow
  | note
  | response
  | other (tag : String)
deriving DecidableEq

/-- A canvas shape.  `text` models `props.text` (meaningful for the four
allow-listed kinds); `html` models `props.html` (meaningful for `response`
shapes, empty when absent). -/
structure Shape where
  id : Nat
  type : ShapeType
  x : Int
  y : Int
  text : String
  html : String
deriving DecidableEq

/-- Selection page bounds, as returned by `editor.getSelectionPageBounds()`. -/
structure Bounds where
  x : Int
  y : Int
  maxX : Int
  maxY : Int
deriving DecidableEq

/-- The observable editor state read by `makeReal.tsx`.
`descendantIds` models the collection returned by
`editor.getShapeAndDescendantIds(selectedShapeIds)` (external collaborator,
iteration order unspecified); `selectionPageBounds` models
`editor.getSelectionPageBounds()` (`none` when the canvas reports no bounds). -/
structure EditorState where
  shapes : List Shape
  selectedShapeIds : List Nat
  descendantIds : List Nat
  selectionPageBounds : Option Bounds
deriving DecidableEq

/-- `editor.getShape(id)`: look the shape up in the store. -/
def getShape (e : EditorState) (id : Nat) : Option Shape :=
  e.shapes.find? (fun s => decide (s.id = id))

/-- `editor.getSelectedShapes()`: the selected ids resolved against the store. -/
def getSelectedShapes (e : EditorState) : List Shape :=
  e.selectedShapeIds.filterMap (fun id => getShape e id)

/-- `editor.createShape(...)`: add a shape to the store. -/
def createShape (e : EditorState) (s : Shape) : EditorState :=
  { e with shapes := e.shapes ++ [s] }

/-- `editor.deleteShape(id)`: remove the shape with this id from the store. -/
def deleteShape (e : EditorState) (id : Nat) : EditorState :=
  { e with shapes := e.shapes.filter (fun s => decide (s.id ≠ id)) }

/-- `editor.updateShape({id, type: 'response', props: {html}})`: overwrite the
`html` prop of the shape with this id. -/
def updateShapeHtml (e : EditorState) (id : Nat) (html : String) : EditorState :=
  { e with shapes := e.shapes.map (fun s => if s.id = id then { s with html := html } else s) }

/-- The errors `makeReal.tsx` can throw.  `emptySelection`, `noBounds`,
`multiplePriorResponses` and `missingChoice` model the `throw new Error(...)`
sites (and the runtime TypeError of `choices[0].message` on an empty choice
list); `remoteApi` carries the structured error message of the OpenAI
response; `transport` stands for an opaque failure thrown by the network
layer itself. -/
inductive MakeRealError where
  | emptySelection
  | noBounds
  | multiplePriorResponses
  | missingChoice
  | remoteApi (message : String)
  | transport (detail : String)
deriving DecidableEq

/-- A content part of the user message (`MessageContent` in the source). -/
inductive ContentPart where
  | image (url : String) (detail : String)
  | text (t : String)
deriving DecidableEq

/-- Message content: the system message carries a plain string, the user
message carries a list of content parts. -/
inductive MsgContent where
  | str (s : String)
  | parts (ps : List ContentPart)
deriving DecidableEq

/-- A chat message (`GPT4VMessage` in the source). -/
structure GPT4VMessage where
  role : String
  content : MsgContent
deriving DecidableEq

/-- The structured error field of an OpenAI response. -/
structure ApiError where
  message : String
deriving DecidableEq

/-- `choices[i].message` of an OpenAI response. -/
structure ChoiceMessage where
  content : String
deriving DecidableEq

/-- One element of `choices`. -/
structure Choice where
  message : ChoiceMessage
deriving DecidableEq

/-- `GPT4VCompletionResponse`: either a structured error or a choice list. -/
structure GPT4VCompletionResponse where
  error : Option ApiError
  choices : List Choice
deriving DecidableEq

/-- The request body handed to `fetchFromOpenAi` (model parameters and the
two-message prompt). -/
structure OpenAiRequest where
  model : String
  max_tokens : Nat
  temperature : Nat
  messages : List GPT4VMessage
deriving DecidableEq

/-- The fixed system prompt of `makeReal.tsx` (verbatim constant). -/
def systemPrompt : String :=
  "You are a generative artist who specializes in p5.js.\nA user will provide you with an input image. \nYou will return a single html file that uses p5.js code to draw an generative artwork that looks exactly the same as the input image. \nUse any complex methods to draw out the art that look as similar to the input image as possible, matching style, shape, colors and strokes.\nUser might also include text in the sketch, use it as a extra description guidance.\nDo not load any images in the resulting code.\nThey may also provide you with the code file of a previous art that they want you to iterate from.\nCarry out any changes they request from you.\nRespond ONLY with the contents of the html file."

/-- The fixed instruction text of the second user content part. -/
def tailwindInstruction : String :=
  "Turn this into a single html file using tailwind."

/-- `getContentOfPreviousResponse(editor)`: filter the direct selection to
`response`-kind shapes; zero matches yield `null` (here `none`), more than
one throws, exactly one yields its `props.html`. -/
def getContentOfPreviousResponse (e : EditorState) :
    Except MakeRealError (Option String) :=
  let previousResponses :=
    (getSelectedShapes e).filter (fun s => decide (s.type = ShapeType.response))
  match previousResponses with
  | [] => .ok none
  | [r] => .ok (some r.html)
  | _ => .error .multiplePriorResponses

/-- `getSelectionAsText(editor)`: map each descendant id to its shape's
`props.text` when the shape exists and its kind is `text`, `geo`, `arrow` or
`note` (else `null`), drop the `null` and empty entries, join with `"\n"`. -/
def getSelectionAsText (e : EditorState) : String :=
  let texts :=
    (e.descendantIds.filterMap (fun id =>
      match getShape e id with
      | none => none
      | some shape =>
        if shape.type = ShapeType.text ∨ shape.type = ShapeType.geo ∨
            shape.type = ShapeType.arrow ∨ shape.type = ShapeType.note then
          some shape.text
        else
          none)).filter (fun v => decide (v ≠ ""))
  String.intercalate "\n" texts

/-- `buildPromptForOpenAi(editor)`: the three base user content parts (image
at high detail, fixed tailwind instruction, gathered selection text), plus a
fourth text part holding the previous response when
`getContentOfPreviousResponse` returned a truthy (non-null, non-empty)
string; combined with the system prompt into `[system, user]`.
`imageUrl` is the value awaited from `getSelectionAsImageDataUrl(editor)`
(external image-capture collaborator). -/
def buildPromptForOpenAi (e : EditorState) (imageUrl : String) :
    Except MakeRealError (List GPT4VMessage) := do
  let base : List ContentPart :=
    [ .image imageUrl "high",
      .text tailwindInstruction,
      .text (getSelectionAsText e) ]
  let previousResponseContent ← getContentOfPreviousResponse e
  let userMessages : List ContentPart :=
    match previousResponseContent with
    | some p => if p = "" then base else base ++ [.text p]
    | none => base
  pure [ { role := "system", content := .str systemPrompt },
         { role := "user", content := .parts userMessages } ]

/-- Scan `hay` for the first position at or after offset `i` (absolute
indices) where `pat` is a prefix of the remaining characters; `none` when
there is no occurrence.  This is the search loop underlying JavaScript
`String.prototype.indexOf`. -/
def findFrom (pat : List Char) : List Char → Nat → Option Nat
  | [], i => if pat.isPrefixOf [] then some i else none
  | a :: t, i => if pat.isPrefixOf (a :: t) then some i else findFrom pat t (i + 1)

/-- JavaScript `s.indexOf(pat)`: the index of the first occurrence, `-1`
when there is none. -/
def jsIndexOf (s pat : String) : Int :=
  match findFrom pat.data s.data 0 with
  | some n => (n : Int)
  | none => -1

/-- Normalise one argument of JavaScript `String.prototype.slice`: negative
indices count from the end and everything is clamped into `[0, len]`. -/
def jsClamp (len : Nat) (i : Int) : Nat :=
  if i < 0 then ((len : Int) + i).toNat else min i.toNat len

/-- JavaScript `s.slice(a, b)`. -/
def jsSlice (s : String) (a b : Int) : String :=
  let cs := s.data
  let st := jsClamp cs.length a
  let en := jsClamp cs.length b
  String.mk (List.take (en - st) (List.drop st cs))

/-- The doctype marker searched by the extraction step. -/
def doctypeMarker : String := "<!DOCTYPE html>"

/-- The closing marker searched by the extraction step. -/
def closeMarker : String := "</html>"

/-- The extraction of `populateResponseShape`:
`start = message.indexOf('<!DOCTYPE html>')`,
`end = message.indexOf('</html>')` (searched from position 0),
`html = message.slice(start, end + '</html>'.length)`. -/
def extractHtml (message : String) : String :=
  let start := jsIndexOf message doctypeMarker
  let stop := jsIndexOf message closeMarker
  jsSlice message start (stop + (closeMarker.length : Int))

/-- `populateResponseShape(editor, responseShapeId, openAiResponse)`: throw
the structured error when present, otherwise read
`choices[0].message.content` (a runtime error on an empty choice list),
extract the html and commit it to the response shape. -/
def populateResponseShape (e : EditorState) (responseShapeId : Nat)
    (openAiResponse : GPT4VCompletionResponse) :
    Except MakeRealError EditorState :=
  match openAiResponse.error with
  | some err => .error (.remoteApi err.message)
  | none =>
    match openAiResponse.choices with
    | [] => .error .missingChoice
    | choice :: _ =>
      let message := choice.message.content
      let html := extractHtml message
      .ok (updateShapeHtml e responseShapeId html)

/-- The placeholder response shape `makeEmptyResponseShape` creates: a
`response`-kind shape with no html content, positioned at
`(selectionBounds.maxX + 60, selectionBounds.y)`. -/
def placeholderShape (newId : Nat) (selectionBounds : Bounds) : Shape :=
  { id := newId, type := .response,
    x := selectionBounds.maxX + 60, y := selectionBounds.y,
    text := "", html := "" }

/-- `makeEmptyResponseShape(editor)`: throw when the canvas reports no
selection bounds, otherwise create an empty `response` shape at
`(selectionBounds.maxX + 60, selectionBounds.y)`.  `newId` is the fresh
identifier allocated by `createShapeId()`. -/
def makeEmptyResponseShape (e : EditorState) (newId : Nat) :
    Except MakeRealError EditorState :=
  match e.selectionPageBounds with
  | none => .error .noBounds
  | some selectionBounds =>
    .ok (createShape e (placeholderShape newId selectionBounds))

/-- Everything `makeReal` does before the network call: the empty-selection
check, prompt construction, placeholder creation, and assembly of the
request body (`model: 'gpt-4-vision-preview'`, `max_tokens: 4096`,
`temperature: 0`, `messages: prompt`).  Returns the editor state holding the
placeholder together with the request to be sent. -/
def makeRealPrelude (e : EditorState) (imageUrl : String) (newId : Nat) :
    Except MakeRealError (EditorState × OpenAiRequest) :=
  if (getSelectedShapes e).length = 0 then
    .error .emptySelection
  else
    match buildPromptForOpenAi e imageUrl with
    | .error err => .error err
    | .ok prompt =>
      match makeEmptyResponseShape e newId with
      | .error err => .error err
      | .ok e1 => .ok (e1, { model := "gpt-4-vision-preview", max_tokens := 4096,
                             temperature := 0, messages := prompt })

/-- The outcome of one `makeReal` invocation: the final editor state, the
returned-or-thrown result, and the request that was sent to the remote
endpoint (`none` when control never reached the network call). -/
structure Invocation where
  finalEditor : EditorState
  result : Except MakeRealError Unit
  sentRequest : Option OpenAiRequest

/-- `makeReal(editor)`: run the prelude; on success send the request (the
outcome of `fetchFromOpenAi` is the parameter `fetchResult`) and populate
the response shape, deleting the placeholder and rethrowing the error when
the fetch or the population throws. -/
def makeReal (e : EditorState) (imageUrl : String) (newId : Nat)
    (fetchResult : Except MakeRealError GPT4VCompletionResponse) : Invocation :=
  match makeRealPrelude e imageUrl newId with
  | .error err => { finalEditor := e, result := .error err, sentRequest := none }
  | .ok (e1, req) =>
    match fetchResult with
    | .error err =>
      { finalEditor := deleteShape e1 newId, result := .error err, sentRequest := some req }
    | .ok resp =>
      match populateResponseShape e1 newId resp with
      | .error err =>
        { finalEditor := deleteShape e1 newId, result := .error err, sentRequest := some req }
      | .ok e2 =>
        { finalEditor := e2, result := .ok (), sentRequest := some req }

/-- All positions (bounded by `s.length`) at which `pat` occurs in `s`, i.e.
is a prefix of the characters from that position on.  Used to state
"exactly one occurrence" hypotheses decidably. -/
def occIndices (s pat : List Char) : List Nat :=
  (List.range (s.length + 1)).filter (fun q => pat.isPrefixOf (List.drop q s))

/-- Modelled from the spec (§4.3 Extraction), for comparison with
`extractHtml`: locate the first occurrence of `<!DOCTYPE html>`, then the
first occurrence of `</html>` at or after that point, and return the
substring from the start of the doctype marker through the end of the
closing marker inclusive; `none` when either search fails (a case the spec
leaves open). -/
def specExtractHtml (message : String) : Option String :=
  match findFrom doctypeMarker.data message.data 0 with
  | none => none
  | some i =>
    match findFrom closeMarker.data (message.data.drop i) i with
    | none => none
    | some j =>
      some (String.mk (List.take (j + closeMarker.length - i) (List.drop i message.data)))

/-- Membership in the fixed allow-list of text-bearing shape kinds
{text, geometric-shape, arrow, note}. -/
def allowListed (t : ShapeType) : Prop :=
  t ∈ [ShapeType.text, ShapeType.geo, ShapeType.arrow, ShapeType.note]

instance : DecidablePred allowListed := fun t => by
  unfold allowListed
  infer_instance

/-- Modelled from the spec (§4.1 Text gathering), for comparison with
`getSelectionAsText`: resolve the descendant ids against the store, keep the
shapes whose kind is in the allow-list and whose text is non-empty, and join
their texts with `"\n"` in traversal order. -/
def gatheredTextSpec (e : EditorState) : String :=
  String.intercalate "\n"
    (((e.descendantIds.filterMap (fun id => getShape e id)).filter
        (fun s => decide (allowListed s.type) && decide (s.text ≠ ""))).map
      (fun s => s.text))

/-! Concrete fixtures used by the witness theorems. -/

/-- A text shape carrying the text "Hello". -/
def sampleTextShape : Shape :=
  { id := 1, type := .text, x := 0, y := 0, text := "Hello", html := "" }

/-- A geometric shape with empty text. -/
def sampleGeoShape : Shape :=
  { id := 2, type := .geo, x := 10, y := 10, text := "", html := "" }

/-- A response shape holding a previous html artifact. -/
def sampleResponseA : Shape :=
  { id := 3, type := .response, x := 0, y := 0, text := "",
    html := "<!DOCTYPE html>old</html>" }

/-- A second response shape. -/
def sampleResponseB : Shape :=
  { id := 4, type := .response, x := 0, y := 0, text := "", html := "<p>" }

/-- A response shape whose html is the empty string. -/
def sampleResponseEmpty : Shape :=
  { id := 5, type := .response, x := 0, y := 0, text := "", html := "" }

/-- Selection bounds with `maxX = 100` and `y = 50` (the spec's example). -/
def sampleBounds : Bounds := { x := 0, y := 50, maxX := 100, maxY := 80 }

/-- An editor with nothing selected. -/
def emptyEditor : EditorState :=
  { shapes := [], selectedShapeIds := [], descendantIds := [],
    selectionPageBounds := none }

/-- An editor with a text shape and a geo shape selected, no response shape. -/
def basicEditor : EditorState :=
  { shapes := [sampleTextShape, sampleGeoShape],
    selectedShapeIds := [1, 2], descendantIds := [1, 2],
    selectionPageBounds := some sampleBounds }

/-- An editor whose selection contains exactly one response shape. -/
def oneResponseEditor : EditorState :=
  { shapes := [sampleTextShape, sampleResponseA],
    selectedShapeIds := [1, 3], descendantIds := [1, 3],
    selectionPageBounds := some sampleBounds }

/-- An editor whose selection contains two response shapes. -/
def twoResponsesEditor : EditorState :=
  { shapes := [sampleTextShape, sampleResponseA, sampleResponseB],
    selectedShapeIds := [1, 3, 4], descendantIds := [1, 3, 4],
    selectionPageBounds := some sampleBounds }

/-- An editor whose selection contains exactly one response shape, with
empty html. -/
def emptyResponseEditor : EditorState :=
  { shapes := [sampleTextShape, sampleResponseEmpty],
    selectedShapeIds := [1, 5], descendantIds := [1, 5],
    selectionPageBounds := some sampleBounds }

/-- The editor state holding the placeholder that `makeRealPrelude` creates
on `basicEditor` with fresh id 9. -/
def basicWithPlaceholder : EditorState :=
  createShape basicEditor
    { id := 9, type := .response, x := 160, y := 50, text := "", html := "" }

/-- The request body `makeRealPrelude` assembles on `basicEditor` with image
url "u". -/
def basicRequest : OpenAiRequest :=
  { model := "gpt-4-vision-preview", max_tokens := 4096, temperature := 0,
    messages :=
      [ { role := "system", content := .str systemPrompt },
        { role := "user", content := .parts
            [ .image "u" "high",
              .text tailwindInstruction,
              .text "Hello" ] } ] }

/-- The optional fourth user content part: present, holding the prior html
verbatim, exactly when the prior-response lookup returned a truthy (non-null
and non-empty) string. -/
def priorParts : Option String → List ContentPart
  | some p => if p = "" then [] else [ContentPart.text p]
  | none => []

/-- A remote response carrying a structured error with message "bad". -/
def respBad : GPT4VCompletionResponse :=
  { error := some { message := "bad" }, choices := [] }

/-! General lemmas about the `indexOf` search loop. -/

/-- `findFrom` finds the first match: if `pat` occurs at relative offset `k`
and at no earlier offset, the scan started at absolute index `i` returns
`i + k`. -/
theorem findFrom_eq_some (pat : List Char) (k : Nat) :
    ∀ (hay : List Char) (i : Nat), pat <+: hay.drop k →
      (∀ m, m < k → ¬ pat <+: hay.drop m) →
      findFrom pat hay i = some (i + k) := by
  induction k with
  | zero =>
    intro hay i h1 _
    cases hay with
    | nil =>
      simp only [List.drop] at h1
      simp [findFrom, List.isPrefixOf_iff_prefix, h1]
    | cons a t =>
      simp only [List.drop] at h1
      simp [findFrom, List.isPrefixOf_iff_prefix, h1]
  | succ k ih =>
    intro hay i h1 h2
    have h0 : ¬ pat <+: hay := by simpa using h2 0 (Nat.succ_pos k)
    cases hay with
    | nil =>
      exact absurd (by simpa using h1) h0
    | cons a t =>
      have hrec := ih t (i + 1) (by simpa using h1)
        (fun m hm => by simpa using h2 (m + 1) (by omega))
      rw [findFrom, if_neg (fun hb => h0 (List.isPrefixOf_iff_prefix.mp hb)), hrec]
      congr 1
      omega

/-- Conversely, a successful scan identifies a first match: the result is at
or after the start, `pat` occurs there, and at no earlier offset. -/
theorem findFrom_some (pat : List Char) :
    ∀ (hay : List Char) (i j : Nat), findFrom pat hay i = some j →
      i ≤ j ∧ pat <+: hay.drop (j - i) ∧
        ∀ m, m < j - i → ¬ pat <+: hay.drop m := by
  intro hay
  induction hay with
  | nil =>
    intro i j h
    rw [findFrom] at h
    split at h
    case isTrue hb =>
      obtain rfl : i = j := by injection h
      refine ⟨Nat.le_refl _, ?_, ?_⟩
      · simpa using List.isPrefixOf_iff_prefix.mp hb
      · intro m hm
        omega
    case isFalse => exact absurd h (by simp)
  | cons a t ih =>
    intro i j h
    rw [findFrom] at h
    split at h
    case isTrue hb =>
      obtain rfl : i = j := by injection h
      refine ⟨Nat.le_refl _, ?_, ?_⟩
      · simpa using List.isPrefixOf_iff_prefix.mp hb
      · intro m hm
        omega
    case isFalse hb =>
      obtain ⟨h1, h2, h3⟩ := ih (i + 1) j h
      refine ⟨by omega, ?_, ?_⟩
      · have hk : j - i = (j - (i + 1)) + 1 := by omega
        rw [hk]
        simpa using h2
      · intro m hm
        cases m with
        | zero =>
          intro hp
          exact hb (List.isPrefixOf_iff_prefix.mpr (by simpa using hp))
        | succ m' =>
          have := h3 m' (by omega)
          simpa using this

/-- An occurrence of a non-empty pattern at position `p` fits inside `s`. -/
theorem prefix_drop_bound {pat s : List Char} {p : Nat} (hne : pat ≠ [])
    (h : pat <+: s.drop p) : p + pat.length ≤ s.length := by
  have hl := h.length_le
  rw [List.length_drop] at hl
  by_cases hp : p ≤ s.length
  · omega
  · exfalso
    have hnil : s.drop p = [] := List.drop_eq_nil_of_le (by omega)
    rw [hnil] at h
    exact hne (List.prefix_nil.mp h)

/-- Reading off a singleton `occIndices` result: the pattern occurs at `p`
and nowhere else. -/
theorem occIndices_eq_singleton {s pat : List Char} {p : Nat} (hne : pat ≠ [])
    (h : occIndices s pat = [p]) :
    pat <+: s.drop p ∧ ∀ q, pat <+: s.drop q → q = p := by
  constructor
  · have hp : p ∈ occIndices s pat := by
      rw [h]
      exact List.mem_singleton.mpr rfl
    unfold occIndices at hp
    rw [List.mem_filter] at hp
    exact List.isPrefixOf_iff_prefix.mp (by simpa using hp.2)
  · intro q hq
    have hpos : 0 < pat.length := List.length_pos.mpr hne
    have hql : q + pat.length ≤ s.length := prefix_drop_bound hne hq
    have hq' : q ∈ occIndices s pat := by
      unfold occIndices
      rw [List.mem_filter]
      refine ⟨List.mem_range.mpr (by omega), ?_⟩
      simpa using List.isPrefixOf_iff_prefix.mpr hq
    rw [h] at hq'
    simpa using hq'

/-- A unique occurrence at `p` makes the scan from 0 return `p`. -/
theorem findFrom_zero_of_unique {s pat : List Char} {p : Nat} (hne : pat ≠ [])
    (h : occIndices s pat = [p]) : findFrom pat s 0 = some p := by
  obtain ⟨h1, h2⟩ := occIndices_eq_singleton hne h
  have := findFrom_eq_some pat p s 0 h1
    (fun m hm hp => by
      have := h2 m hp
      omega)
  simpa using this

/-- When the globally-first occurrence is at `j ≥ i`, the scan restricted to
positions at or after `i` also returns `j`. -/
theorem findFrom_drop_eq {s pat : List Char} {i j : Nat}
    (h : findFrom pat s 0 = some j) (hij : i ≤ j) :
    findFrom pat (s.drop i) i = some j := by
  obtain ⟨-, h2, h3⟩ := findFrom_some pat s 0 j h
  have hmain := findFrom_eq_some pat (j - i) (s.drop i) i ?_ ?_
  · rw [hmain]
    congr 1
    omega
  · rw [List.drop_drop]
    have hji : i + (j - i) = j - 0 := by omega
    rw [hji]
    exact h2
  · intro m hm
    rw [List.drop_drop]
    exact h3 (i + m) (by omega)

/-- The two marker lengths, for arithmetic. -/
theorem doctypeMarker_data_length : doctypeMarker.data.length = 15 := rfl

/-- Length of the closing marker. -/
theorem closeMarker_data_length : closeMarker.data.length = 7 := rfl

/-- When both markers are found (doctype first at `i`, closing first at `j`,
both globally), the extraction computes the character range `[i, j + 7)`. -/
theorem extractHtml_eq_take_drop {msg : String} {i j : Nat}
    (hd : findFrom doctypeMarker.data msg.data 0 = some i)
    (hc : findFrom closeMarker.data msg.data 0 = some j) :
    extractHtml msg = String.mk (List.take (j + 7 - i) (List.drop i msg.data)) := by
  have hdo : doctypeMarker.data <+: msg.data.drop i := by
    have h := (findFrom_some doctypeMarker.data msg.data 0 i hd).2.1
    simpa using h
  have hco : closeMarker.data <+: msg.data.drop j := by
    have h := (findFrom_some closeMarker.data msg.data 0 j hc).2.1
    simpa using h
  have hdb : i + 15 ≤ msg.data.length := by
    have h := prefix_drop_bound (by decide) hdo
    rw [doctypeMarker_data_length] at h
    exact h
  have hcb : j + 7 ≤ msg.data.length := by
    have h := prefix_drop_bound (by decide) hco
    rw [closeMarker_data_length] at h
    exact h
  have hclen : (closeMarker.length : Int) = 7 := rfl
  have hi0 : ¬ ((i : Int) < 0) := by omega
  have hj0 : ¬ ((j : Int) + 7 < 0) := by omega
  have hti : ((i : Int)).toNat = i := Int.toNat_ofNat i
  have htj : (((j : Int)) + 7).toNat = j + 7 := by omega
  simp only [extractHtml, jsIndexOf, jsSlice, jsClamp, hd, hc, hclen]
  rw [if_neg hi0, if_neg hj0, hti, htj]
  have hi : i ⊓ msg.data.length = i := Nat.min_eq_left (by omega)
  have hj : (j + 7) ⊓ msg.data.length = j + 7 := Nat.min_eq_left (by omega)
  rw [hi, hj]

/-- The span facts for C3: with a unique occurrence of each marker and the
closing marker strictly after the doctype, the extracted string starts with
the doctype marker, ends with the closing marker, embeds back into the
message at the range `[i, j + 7)`, and has length `j + 7 - i`. -/
theorem extract_span {msg : String} {i j : Nat}
    (hd : occIndices msg.data doctypeMarker.data = [i])
    (hc : occIndices msg.data closeMarker.data = [j])
    (hij : i + 15 ≤ j) :
    doctypeMarker.data <+: (extractHtml msg).data ∧
    closeMarker.data <:+ (extractHtml msg).data ∧
    msg.data = msg.data.take i ++ (extractHtml msg).data ++ msg.data.drop (j + 7) ∧
    (extractHtml msg).data.length = j + 7 - i := by
  have hfd : findFrom doctypeMarker.data msg.data 0 = some i :=
    findFrom_zero_of_unique (by decide) hd
  have hfc : findFrom closeMarker.data msg.data 0 = some j :=
    findFrom_zero_of_unique (by decide) hc
  have hdo : doctypeMarker.data <+: msg.data.drop i :=
    (occIndices_eq_singleton (by decide) hd).1
  have hco : closeMarker.data <+: msg.data.drop j :=
    (occIndices_eq_singleton (by decide) hc).1
  have hcb : j + 7 ≤ msg.data.length := by
    have h := prefix_drop_bound (by decide) hco
    rw [closeMarker_data_length] at h
    exact h
  have hx : (extractHtml msg).data = List.take (j + 7 - i) (List.drop i msg.data) := by
    rw [extractHtml_eq_take_drop hfd hfc]
  have hxlen : (extractHtml msg).data.length = j + 7 - i := by
    rw [hx, List.length_take, List.length_drop]
    omega
  refine ⟨?_, ?_, ?_, hxlen⟩
  · rw [hx]
    refine List.prefix_take_iff.mpr ⟨hdo, ?_⟩
    rw [doctypeMarker_data_length]
    omega
  · have hdropx : (extractHtml msg).data.drop (j - i) = closeMarker.data := by
      rw [hx, List.drop_take, List.drop_drop]
      have h1 : j + 7 - i - (j - i) = 7 := by omega
      have h2 : i + (j - i) = j := by omega
      rw [h1, h2]
      have := List.prefix_iff_eq_take.mp hco
      rw [closeMarker_data_length] at this
      exact this.symm
    refine ⟨(extractHtml msg).data.take (j - i), ?_⟩
    rw [← hdropx]
    exact List.take_append_drop (j - i) (extractHtml msg).data
  · rw [hx]
    have hsplit : msg.data = List.take i msg.data ++ List.drop i msg.data :=
      (List.take_append_drop i msg.data).symm
    have hsplit2 : List.drop i msg.data =
        List.take (j + 7 - i) (List.drop i msg.data) ++
          List.drop (j + 7 - i) (List.drop i msg.data) :=
      (List.take_append_drop (j + 7 - i) (List.drop i msg.data)).symm
    have hdd : List.drop (j + 7 - i) (List.drop i msg.data) =
        List.drop (j + 7) msg.data := by
      rw [List.drop_drop]
      congr 1
      omega
    conv_lhs => rw [hsplit, hsplit2, hdd]
    rw [List.append_assoc]

/-- Inverting a successful prelude: the selection was non-empty, the prompt
was built, the bounds were present, the placeholder was appended at
`(maxX + 60, y)` with empty html, and the request carries the prompt with
the fixed model parameters. -/
theorem makeRealPrelude_ok {e : EditorState} {imageUrl : String} {newId : Nat}
    {e1 : EditorState} {req : OpenAiRequest}
    (h : makeRealPrelude e imageUrl newId = .ok (e1, req)) :
    ∃ b prompt, e.selectionPageBounds = some b ∧
      buildPromptForOpenAi e imageUrl = .ok prompt ∧
      e1 = createShape e (placeholderShape newId b) ∧
      req = { model := "gpt-4-vision-preview", max_tokens := 4096,
              temperature := 0, messages := prompt } ∧
      (getSelectedShapes e).length ≠ 0 := by
  unfold makeRealPrelude at h
  split at h
  · exact absurd h (by simp)
  case isFalse hne =>
    cases hp : buildPromptForOpenAi e imageUrl with
    | error err =>
      rw [hp] at h
      simp at h
    | ok prompt =>
      rw [hp] at h
      unfold makeEmptyResponseShape at h
      cases hb : e.selectionPageBounds with
      | none =>
        rw [hb] at h
        simp at h
      | some b =>
        rw [hb] at h
        simp only [Except.ok.injEq, Prod.mk.injEq] at h
        exact ⟨b, prompt, rfl, rfl, h.1.symm, h.2.symm, hne⟩

/-- C2, counterexample: in the message
`"</html><!DOCTYPE html>x</html>"` a `</html>` occurrence precedes the
doctype marker; the claimed at-or-after extraction yields the full span
`"<!DOCTYPE html>x</html>"`, but the code searches `</html>` from position
0 and extracts the empty string. -/
theorem c2_counterexample :
    specExtractHtml "</html><!DOCTYPE html>x</html>" =
      some "<!DOCTYPE html>x</html>" ∧
    extractHtml "</html><!DOCTYPE html>x</html>" = "" ∧
    ("" : String) ≠ "<!DOCTYPE html>x</html>" :=
  ⟨rfl, rfl, by decide⟩

/-- C2 (amended): extraction locates the first `<!DOCTYPE html>` and the
first `</html>` searching the whole content from position 0 (not from the
doctype position); whenever that globally-first `</html>` lies at or after
the doctype, the extracted artifact agrees with the at-or-after description
(the substring from the start of the doctype marker through the end of the
closing marker inclusive). -/
theorem c2_extraction_markers {msg : String} {i j : Nat}
    (hd : findFrom doctypeMarker.data msg.data 0 = some i)
    (hc : findFrom closeMarker.data msg.data 0 = some j)
    (hij : i ≤ j) :
    specExtractHtml msg = some (extractHtml msg) := by
  unfold specExtractHtml
  rw [hd]
  simp only [findFrom_drop_eq hc hij]
  rw [extractHtml_eq_take_drop hd hc]
  have hcl : closeMarker.length = 7 := rfl
  rw [hcl]

/-- C2 witness: in `"a<!DOCTYPE html>ok</html>b"` the doctype is first found
at 1 and the closing marker at 18; the theorem applies and both extractions
yield `"<!DOCTYPE html>ok</html>"`. -/
theorem c2_extraction_markers_witness :
    specExtractHtml "a<!DOCTYPE html>ok</html>b" =
      some (extractHtml "a<!DOCTYPE html>ok</html>b") ∧
    extractHtml "a<!DOCTYPE html>ok</html>b" = "<!DOCTYPE html>ok</html>" :=
  ⟨c2_extraction_markers (i := 1) (j := 18) rfl rfl (by omega), rfl⟩

/-- C3: when the message carries exactly one occurrence of
`<!DOCTYPE html>` (at `i`) and exactly one of `</html>` (at `j`), with the
closing marker after the doctype text (a single well-formed span), the
population step commits to the response shape exactly that span: the
committed html starts with the doctype marker, ends with the closing
marker, and is precisely the characters `[i, j + 7)` of the message. -/
theorem c3_commits_exact_span (e : EditorState) (respId : Nat)
    (msg : String) (i j : Nat)
    (hd : occIndices msg.data doctypeMarker.data = [i])
    (hc : occIndices msg.data closeMarker.data = [j])
    (hij : i + 15 ≤ j) :
    populateResponseShape e respId
        { error := none, choices := [{ message := { content := msg } }] } =
      .ok (updateShapeHtml e respId (extractHtml msg)) ∧
    doctypeMarker.data <+: (extractHtml msg).data ∧
    closeMarker.data <:+ (extractHtml msg).data ∧
    msg.data = msg.data.take i ++ (extractHtml msg).data ++ msg.data.drop (j + 7) ∧
    (extractHtml msg).data.length = j + 7 - i := by
  obtain ⟨h1, h2, h3, h4⟩ := extract_span hd hc hij
  exact ⟨rfl, h1, h2, h3, h4⟩

/-- C3 witness: the message `"<!DOCTYPE html>hi</html>"` has its unique
doctype at 0 and unique `</html>` at 17; populating `basicEditor`'s shape 9
commits exactly that span. -/
theorem c3_commits_exact_span_witness :
    populateResponseShape basicEditor 9
        { error := none,
          choices := [{ message := { content := "<!DOCTYPE html>hi</html>" } }] } =
      .ok (updateShapeHtml basicEditor 9 (extractHtml "<!DOCTYPE html>hi</html>")) ∧
    extractHtml "<!DOCTYPE html>hi</html>" = "<!DOCTYPE html>hi</html>" :=
  ⟨(c3_commits_exact_span basicEditor 9 "<!DOCTYPE html>hi</html>" 0 17
      (by decide) (by decide) (by omega)).1, rfl⟩

/-- C1: once the placeholder has been created (the prelude succeeded), any
error raised afterwards — a transport failure of the remote call, or an
error thrown by the structured-error check or extraction inside
`populateResponseShape` — makes `makeReal` delete the placeholder by its
identifier and rethrow that error unchanged; no shape with the placeholder's
identifier remains in the final state. -/
theorem c1_rollback_atomicity (e : EditorState) (imageUrl : String)
    (newId : Nat) (fetchResult : Except MakeRealError GPT4VCompletionResponse)
    (e1 : EditorState) (req : OpenAiRequest) (err : MakeRealError)
    (hpre : makeRealPrelude e imageUrl newId = .ok (e1, req))
    (herr : fetchResult = .error err ∨
      ∃ resp, fetchResult = .ok resp ∧
        populateResponseShape e1 newId resp = .error err) :
    makeReal e imageUrl newId fetchResult =
      { finalEditor := deleteShape e1 newId, result := .error err,
        sentRequest := some req } ∧
    ∀ s ∈ (makeReal e imageUrl newId fetchResult).finalEditor.shapes,
      s.id ≠ newId := by
  have hmain : makeReal e imageUrl newId fetchResult =
      { finalEditor := deleteShape e1 newId, result := .error err,
        sentRequest := some req } := by
    rcases herr with rfl | ⟨resp, rfl, hpop⟩
    · simp only [makeReal, hpre]
    · simp only [makeReal, hpre, hpop]
  refine ⟨hmain, ?_⟩
  rw [hmain]
  intro s hs
  simp only [deleteShape, List.mem_filter, decide_eq_true_eq] at hs
  exact hs.2

/-- C1 witness: on `basicEditor` with fresh id 9, an opaque transport
failure "boom" is rethrown unchanged and the placeholder is removed. -/
theorem c1_rollback_atomicity_witness :
    makeReal basicEditor "u" 9 (.error (.transport "boom")) =
      { finalEditor := deleteShape basicWithPlaceholder 9,
        result := .error (.transport "boom"),
        sentRequest := some basicRequest } :=
  (c1_rollback_atomicity basicEditor "u" 9 (.error (.transport "boom"))
    basicWithPlaceholder basicRequest (.transport "boom") rfl (Or.inl rfl)).1

/-- C4: with an empty selection `makeReal` fails with the empty-selection
error, the editor state is returned untouched (no shape created, updated or
deleted), and no request is sent. -/
theorem c4_empty_selection (e : EditorState) (imageUrl : String)
    (newId : Nat) (fetchResult : Except MakeRealError GPT4VCompletionResponse)
    (hsel : getSelectedShapes e = []) :
    makeReal e imageUrl newId fetchResult =
      { finalEditor := e, result := .error .emptySelection,
        sentRequest := none } := by
  have hpre : makeRealPrelude e imageUrl newId = .error .emptySelection := by
    unfold makeRealPrelude
    rw [hsel]
    simp
  simp only [makeReal, hpre]

/-- C4 witness: the empty editor fails with the empty-selection error,
unchanged state, no request sent. -/
theorem c4_empty_selection_witness :
    makeReal emptyEditor "u" 1 (.error (.transport "x")) =
      { finalEditor := emptyEditor, result := .error .emptySelection,
        sentRequest := none } :=
  c4_empty_selection emptyEditor "u" 1 (.error (.transport "x")) rfl

/-- C5: if the direct selection holds two or more response-kind shapes, the
invocation fails with the multiple-prior-responses error before any canvas
side effect and before any request is sent; zero response shapes yield no
prior context, and exactly one yields its html as prior context. -/
theorem c5_prior_response_rule (e : EditorState) (imageUrl : String)
    (newId : Nat) (fetchResult : Except MakeRealError GPT4VCompletionResponse) :
    (2 ≤ ((getSelectedShapes e).filter
        (fun s => decide (s.type = ShapeType.response))).length →
      makeReal e imageUrl newId fetchResult =
        { finalEditor := e, result := .error .multiplePriorResponses,
          sentRequest := none }) ∧
    (((getSelectedShapes e).filter
        (fun s => decide (s.type = ShapeType.response))) = [] →
      getContentOfPreviousResponse e = .ok none) ∧
    (∀ r, ((getSelectedShapes e).filter
        (fun s => decide (s.type = ShapeType.response))) = [r] →
      getContentOfPreviousResponse e = .ok (some r.html)) := by
  refine ⟨?_, ?_, ?_⟩
  · intro hlen
    rcases hfil : (getSelectedShapes e).filter
        (fun s => decide (s.type = ShapeType.response)) with _ | ⟨a, _ | ⟨b, t⟩⟩
    · rw [hfil] at hlen
      simp at hlen
    · rw [hfil] at hlen
      simp at hlen
    · have hcont : getContentOfPreviousResponse e =
          .error .multiplePriorResponses := by
        unfold getContentOfPreviousResponse
        rw [hfil]
      have hbp : buildPromptForOpenAi e imageUrl =
          .error .multiplePriorResponses := by
        simp only [buildPromptForOpenAi]
        rw [hcont]
        rfl
      have hne : ¬ (getSelectedShapes e).length = 0 := by
        have hle : ((getSelectedShapes e).filter
            (fun s => decide (s.type = ShapeType.response))).length ≤
              (getSelectedShapes e).length := List.length_filter_le _ _
        rw [hfil] at hle
        simp at hle
        omega
      have hpre : makeRealPrelude e imageUrl newId =
          .error .multiplePriorResponses := by
        unfold makeRealPrelude
        rw [if_neg hne, hbp]
      simp only [makeReal, hpre]
  · intro hfil
    unfold getContentOfPreviousResponse
    rw [hfil]
  · intro r hfil
    unfold getContentOfPreviousResponse
    rw [hfil]

/-- C5 witness: two selected response shapes abort with no side effect
(`twoResponsesEditor`); none selected gives no prior context
(`basicEditor`); exactly one gives its html (`oneResponseEditor`). -/
theorem c5_prior_response_rule_witness :
    makeReal twoResponsesEditor "u" 9 (.error (.transport "x")) =
      { finalEditor := twoResponsesEditor,
        result := .error .multiplePriorResponses, sentRequest := none } ∧
    getContentOfPreviousResponse basicEditor = .ok none ∧
    getContentOfPreviousResponse oneResponseEditor =
      .ok (some "<!DOCTYPE html>old</html>") :=
  ⟨(c5_prior_response_rule twoResponsesEditor "u" 9
      (.error (.transport "x"))).1 (by decide),
   (c5_prior_response_rule basicEditor "u" 9
      (.error (.transport "x"))).2.1 (by decide),
   (c5_prior_response_rule oneResponseEditor "u" 9
      (.error (.transport "x"))).2.2 sampleResponseA (by decide)⟩

/-- C6: a remote response carrying a structured error field makes the
invocation fail with the remote-api error holding that message; the
placeholder is deleted, no shape with its identifier remains, and — when the
identifier was fresh — the canvas is exactly as before the invocation, so no
html commit occurred. -/
theorem c6_structured_error (e : EditorState) (imageUrl : String)
    (newId : Nat) (resp : GPT4VCompletionResponse) (errMsg : String)
    (e1 : EditorState) (req : OpenAiRequest)
    (hpre : makeRealPrelude e imageUrl newId = .ok (e1, req))
    (herr : resp.error = some { message := errMsg }) :
    makeReal e imageUrl newId (.ok resp) =
      { finalEditor := deleteShape e1 newId,
        result := .error (.remoteApi errMsg), sentRequest := some req } ∧
    (∀ s ∈ (deleteShape e1 newId).shapes, s.id ≠ newId) ∧
    ((∀ s ∈ e.shapes, s.id ≠ newId) →
      (deleteShape e1 newId).shapes = e.shapes) := by
  have hpop : populateResponseShape e1 newId resp =
      .error (.remoteApi errMsg) := by
    unfold populateResponseShape
    rw [herr]
  refine ⟨?_, ?_, ?_⟩
  · simp only [makeReal, hpre, hpop]
  · intro s hs
    simp only [deleteShape, List.mem_filter, decide_eq_true_eq] at hs
    exact hs.2
  · intro hfresh
    obtain ⟨b, prompt, hb, hp, he1, hreq, hne⟩ := makeRealPrelude_ok hpre
    rw [he1]
    have hshapes : (deleteShape (createShape e (placeholderShape newId b))
        newId).shapes =
        (e.shapes ++ [placeholderShape newId b]).filter
          (fun s => decide (s.id ≠ newId)) := rfl
    rw [hshapes, List.filter_append]
    have hlast : ([placeholderShape newId b]).filter
        (fun s => decide (s.id ≠ newId)) = [] := by
      simp [placeholderShape]
    rw [hlast, List.append_nil]
    refine List.filter_eq_self.mpr ?_
    intro s hs
    simpa using hfresh s hs

/-- C6 witness: on `basicEditor`, the structured error "bad" yields the
remote-api error and leaves the canvas exactly as it was. -/
theorem c6_structured_error_witness :
    (makeReal basicEditor "u" 9 (.ok respBad)).finalEditor.shapes =
      basicEditor.shapes ∧
    (makeReal basicEditor "u" 9 (.ok respBad)).result =
      .error (.remoteApi "bad") := by
  have h := c6_structured_error basicEditor "u" 9 respBad "bad"
    basicWithPlaceholder basicRequest rfl rfl
  constructor
  · rw [h.1]
    exact h.2.2 (by decide)
  · rw [h.1]

/-- C7: the prompt is exactly the two-message list `[system, user]`; the
user message content is, in order, the image part at high detail, the fixed
tailwind instruction, the gathered selection text (included even when
empty), and a fourth text part holding the prior response's html exactly
when the prior-response lookup succeeded with non-empty content.  The
request assembled by the prelude carries exactly these messages. -/
theorem c7_prompt_structure (e : EditorState) (imageUrl : String)
    (prev : Option String)
    (hprev : getContentOfPreviousResponse e = .ok prev) :
    buildPromptForOpenAi e imageUrl = .ok
      [ { role := "system", content := .str systemPrompt },
        { role := "user", content := .parts
            ([ .image imageUrl "high",
               .text tailwindInstruction,
               .text (getSelectionAsText e) ] ++ priorParts prev) } ] ∧
    ∀ newId e1 req, makeRealPrelude e imageUrl newId = .ok (e1, req) →
      req.messages =
        [ { role := "system", content := .str systemPrompt },
          { role := "user", content := .parts
              ([ .image imageUrl "high",
                 .text tailwindInstruction,
                 .text (getSelectionAsText e) ] ++ priorParts prev) } ] := by
  have hbp : buildPromptForOpenAi e imageUrl = .ok
      [ { role := "system", content := .str systemPrompt },
        { role := "user", content := .parts
            ([ .image imageUrl "high",
               .text tailwindInstruction,
               .text (getSelectionAsText e) ] ++ priorParts prev) } ] := by
    simp only [buildPromptForOpenAi]
    rw [hprev]
    clear hprev
    cases prev with
    | none => simp [priorParts]
    | some p =>
      by_cases hp : p = ""
      · simp [priorParts, hp]
      · simp [priorParts, hp]
  refine ⟨hbp, ?_⟩
  intro newId e1 req hpre
  obtain ⟨b, prompt, hb, hp, he1, hreq, hne⟩ := makeRealPrelude_ok hpre
  rw [hp] at hbp
  injection hbp with hmsg
  rw [hreq]
  exact hmsg

/-- C7 witness: on `oneResponseEditor` the lookup succeeds with the prior
html, and the user message carries exactly the four parts in order. -/
theorem c7_prompt_structure_witness :
    buildPromptForOpenAi oneResponseEditor "u" = .ok
      [ { role := "system", content := .str systemPrompt },
        { role := "user", content := .parts
            [ .image "u" "high",
              .text tailwindInstruction,
              .text (getSelectionAsText oneResponseEditor),
              .text "<!DOCTYPE html>old</html>" ] } ] ∧
    getSelectionAsText oneResponseEditor = "Hello" := by
  refine ⟨?_, rfl⟩
  have h := (c7_prompt_structure oneResponseEditor "u"
    (some "<!DOCTYPE html>old</html>") rfl).1
  simpa using h

/-- The list-level core of C8: the code's per-id mapping (resolve, check the
kind disjunction, read text, drop nulls and empties) produces the same list
as the spec-worded pipeline (resolve all, keep allow-listed non-empty,
project text). -/
theorem gather_eq (g : Nat → Option Shape) :
    ∀ ids : List Nat,
      (ids.filterMap (fun id =>
          match g id with
          | none => none
          | some shape =>
            if shape.type = ShapeType.text ∨ shape.type = ShapeType.geo ∨
                shape.type = ShapeType.arrow ∨ shape.type = ShapeType.note then
              some shape.text
            else none)).filter (fun v => decide (v ≠ "")) =
      ((ids.filterMap g).filter
          (fun s => decide (allowListed s.type) && decide (s.text ≠ ""))).map
        (fun s => s.text) := by
  intro ids
  induction ids with
  | nil => rfl
  | cons id t ih =>
    simp only [List.filterMap_cons]
    cases hg : g id with
    | none => simpa using ih
    | some shape =>
      by_cases hal : allowListed shape.type
      · have hor : shape.type = ShapeType.text ∨ shape.type = ShapeType.geo ∨
            shape.type = ShapeType.arrow ∨ shape.type = ShapeType.note := by
          simpa [allowListed] using hal
        by_cases hte : shape.text = ""
        · simpa [hor, hal, hte, List.filter_cons] using ih
        · simpa [hor, hal, hte, List.filter_cons] using ih
      · have hor : ¬ (shape.type = ShapeType.text ∨ shape.type = ShapeType.geo ∨
            shape.type = ShapeType.arrow ∨ shape.type = ShapeType.note) := by
          simpa [allowListed] using hal
        simpa [hor, hal, List.filter_cons] using ih

/-- C8: the gathered selection text computed by the code equals the
spec-worded gathering: the texts of those resolved descendants whose kind is
in the allow-list and whose text is non-empty, in traversal order, joined by
a newline (hence no entry and no blank line for excluded shapes, and no
trailing newline). -/
theorem c8_gathered_text (e : EditorState) :
    getSelectionAsText e = gatheredTextSpec e := by
  unfold getSelectionAsText gatheredTextSpec
  exact congrArg (String.intercalate "\n")
    (gather_eq (fun id => getShape e id) e.descendantIds)

/-- C9: the placeholder is created by the prelude — structurally before the
network call, whose outcome `makeReal` only consults after a successful
prelude — as a `response` shape with empty html appended to the store at
`(selectionBounds.maxX + 60, selectionBounds.y)`. -/
theorem c9_placeholder_position (e : EditorState) (imageUrl : String)
    (newId : Nat) (e1 : EditorState) (req : OpenAiRequest) (b : Bounds)
    (hb : e.selectionPageBounds = some b)
    (hpre : makeRealPrelude e imageUrl newId = .ok (e1, req)) :
    e1.shapes = e.shapes ++ [placeholderShape newId b] ∧
    (placeholderShape newId b).x = b.maxX + 60 ∧
    (placeholderShape newId b).y = b.y ∧
    (placeholderShape newId b).html = "" ∧
    (placeholderShape newId b).type = .response := by
  obtain ⟨b', prompt, hb', hp, he1, hreq, hne⟩ := makeRealPrelude_ok hpre
  rw [hb] at hb'
  injection hb' with hbb
  subst hbb
  exact ⟨by rw [he1]; rfl, rfl, rfl, rfl, rfl⟩

/-- C9 witness: with selection bounds maxX = 100 and y = 50 (as in
`basicEditor`), the placeholder with fresh id 9 lands at (160, 50). -/
theorem c9_placeholder_position_witness :
    basicWithPlaceholder.shapes = basicEditor.shapes ++
      [placeholderShape 9 sampleBounds] ∧
    (placeholderShape 9 sampleBounds).x = 160 ∧
    (placeholderShape 9 sampleBounds).y = 50 := by
  have h := c9_placeholder_position basicEditor "u" 9 basicWithPlaceholder
    basicRequest sampleBounds rfl rfl
  exact ⟨h.1, by decide, by decide⟩

/-- C10: when the direct selection holds exactly one response shape whose
html is the empty string, the lookup does not fail — it returns the empty
string — and the truthiness check omits the fourth user part, so the built
prompt is identical to the one built with no prior response selected. -/
theorem c10_empty_prior_omitted (e : EditorState) (imageUrl : String)
    (r : Shape)
    (hfil : (getSelectedShapes e).filter
        (fun s => decide (s.type = ShapeType.response)) = [r])
    (hhtml : r.html = "") :
    getContentOfPreviousResponse e = .ok (some "") ∧
    buildPromptForOpenAi e imageUrl = .ok
      [ { role := "system", content := .str systemPrompt },
        { role := "user", content := .parts
            [ .image imageUrl "high",
              .text tailwindInstruction,
              .text (getSelectionAsText e) ] } ] := by
  have hcont : getContentOfPreviousResponse e = .ok (some "") := by
    unfold getContentOfPreviousResponse
    rw [hfil]
    simp [hhtml]
  refine ⟨hcont, ?_⟩
  simp only [buildPromptForOpenAi]
  rw [hcont]
  simp

/-- C10 witness: `emptyResponseEditor` selects exactly one response shape
with empty html; the lookup returns the empty string and the prompt has
exactly the three base parts. -/
theorem c10_empty_prior_omitted_witness :
    getContentOfPreviousResponse emptyResponseEditor = .ok (some "") ∧
    buildPromptForOpenAi emptyResponseEditor "u" = .ok
      [ { role := "system", content := .str systemPrompt },
        { role := "user", content := .parts
            [ .image "u" "high",
              .text tailwindInstruction,
              .text (getSelectionAsText emptyResponseEditor) ] } ] :=
  c10_empty_prior_omitted emptyResponseEditor "u" sampleResponseEmpty
    (by decide) rfl

end MakeReal
